import Mathlib

/-!
Verification of the ufdl-job-launcher worker-node agent against its
natural-language specification.  The Python sources are shallowly embedded:
pure functions become Lean functions, stateful methods become explicit
state-passing functions, backend/HTTP/subprocess effects become oracle
parameters recording what the external world returned, and Python
exceptions become `Except`/option-shaped results.  Python `str` values are
Lean `String`s (Python compares strings lexicographically by code point),
Python `float` compute capabilities are `ℚ`.
-/

namespace UfdlJobLauncher

/-! ## Python string primitives

Python `a > b` on `str` is lexicographic comparison of code points.
`os.path.basename`, `str.startswith` and slicing are modelled on the
character list underlying the string. -/

/-- Python lexicographic `<` on lists of characters (by code point). -/
def pyStrLtChars : List Char → List Char → Bool
  | [], [] => false
  | [], _ :: _ => true
  | _ :: _, [] => false
  | a :: as, b :: bs =>
    if a.toNat < b.toNat then true
    else if b.toNat < a.toNat then false
    else pyStrLtChars as bs

/-- Python `a > b` for `str` operands: lexicographic by code point. -/
def pyStrGt (a b : String) : Bool :=
  pyStrLtChars b.data a.data

/-- Python `s.startswith(p)`. -/
def pyStartsWith (s p : String) : Bool :=
  List.isPrefixOf p.data s.data

/-- Python `s[n:]`. -/
def pyDropChars (s : String) (n : Nat) : String :=
  String.mk (s.data.drop n)

/-- Python `os.path.basename` on the character list: the characters after the last
slash (resets the accumulator at every `/`). -/
def basenameChars (cs : List Char) : List Char :=
  cs.foldl (fun acc c => if c = '/' then [] else acc ++ [c]) []

/-- Python `os.path.basename(f)` for POSIX paths. -/
def basename (f : String) : String :=
  String.mk (basenameChars f.data)

/-! ## Hardware snapshot and docker image data model

From `ufdl/joblauncher/core/_node.py` (`HardwareInfo`, `GPU`) as consumed
dict-style by `AbstractDockerJobExecutor.can_run`
(`_AbstractDockerJobExecutor.py` lines 378-429): key-absence tests on the
snapshot dict become `Option` fields.  The GPU collection is indexed by
device id; `can_run` only ever reads entry 0 ("the first GPU"), so the
collection is embedded as a list whose head is device 0. -/

structure GPU where
  /-- The `compute` key of the GPU entry, e.g. `7.5` (Python float). -/
  compute : Option ℚ
deriving DecidableEq, Repr

structure HardwareInfo where
  /-- The `driver` key: NVIDIA driver version string, if available. -/
  driver : Option String
  /-- The `cuda` key: CUDA version string, if available. -/
  cuda : Option String
  /-- The `gpus` key: absent (`none`) when no GPU tooling is available. -/
  gpus : Option (List GPU)
deriving DecidableEq, Repr

/-- The CUDA-version record referenced by a docker image
(`docker_image.cuda_version`): backend `version` and
`min_driver_version` fields, JSON strings. -/
structure CudaVersion where
  version : String
  min_driver_version : String
deriving DecidableEq, Repr

/-- The minimum hardware generation referenced by a docker image. -/
structure HardwareGeneration where
  min_compute_capability : ℚ
deriving DecidableEq, Repr

/-- The fields of `docker_image` read by `can_run`. -/
structure DockerImage where
  /-- The `cpu` flag: whether the image is CPU-only. -/
  cpu : Bool
  cuda_version : CudaVersion
  /-- The `min_hardware_generation` field, which may be `None`. -/
  min_hardware_generation : Option HardwareGeneration
deriving DecidableEq, Repr

/-! ## Capability matcher

`AbstractDockerJobExecutor.can_run` (`_AbstractDockerJobExecutor.py`
lines 378-429).  `AbstractJobExecutor.can_run` (the `super()` call)
returns `None` unconditionally, so it is elided.  The interpolated
numeric compute capability in the last message is elided from the message
text (number-to-string formatting is not load-bearing); the version
messages keep their exact text. -/

/-- The `no_gpu_reason` conditional-expression chain (lines 397-407). -/
def no_gpu_reason (hw : HardwareInfo) : Option String :=
  match hw.gpus with
  | none => some "Node has no GPUs"
  | some [] => some "Node has no GPUs"
  | some (g :: _) =>
    if hw.driver = none then some "Node has no GPU driver"
    else if hw.cuda = none then some "Node has no CUDA version"
    else if g.compute = none then some "Node GPU has no compute capability"
    else none

/-- The CUDA / driver / compute-capability comparisons (lines 414-429),
reached only when `no_gpu_reason` is `None` (so the `getD` defaults are
never observable).  The version comparisons are Python string `>`. -/
def gpu_checks (img : DockerImage) (hw : HardwareInfo) : Option String :=
  let nodeCuda := hw.cuda.getD ""
  let nodeDriver := hw.driver.getD ""
  let nodeCompute := (((hw.gpus.getD []).head?).bind GPU.compute).getD 0
  if pyStrGt img.cuda_version.version nodeCuda then
    some ("Node's CUDA version (" ++ nodeCuda
      ++ ") is too low for Docker image (requires >= "
      ++ img.cuda_version.version ++ ")")
  else if pyStrGt img.cuda_version.min_driver_version nodeDriver then
    some ("Node's driver version (" ++ nodeDriver
      ++ ") is too low for Docker image (requires >= "
      ++ img.cuda_version.min_driver_version ++ ")")
  else
    match img.min_hardware_generation with
    | some gen =>
      if gen.min_compute_capability > nodeCompute then
        some "Node's GPU compute capability is too low for Docker image"
      else none
    | none => none

/-- Embeds `AbstractDockerJobExecutor.can_run`: first the `no_gpu_reason` chain
(CPU-only images pass, others get the reason suffixed with
`" and Docker image is not CPU-only"`), then the version/compute checks. -/
def can_run (img : DockerImage) (hw : HardwareInfo) : Option String :=
  match no_gpu_reason hw with
  | some reason =>
    if img.cpu then none
    else some (reason ++ " and Docker image is not CPU-only")
  | none => gpu_checks img hw

/-- The claim's enumeration of degenerate snapshots: no GPUs (absent or
empty), no driver, no CUDA, or first GPU without a compute value. -/
def lacksGpuInfo (hw : HardwareInfo) : Prop :=
  hw.gpus = none ∨ hw.gpus = some [] ∨ hw.driver = none ∨ hw.cuda = none ∨
    (∃ g gs, hw.gpus = some (g :: gs) ∧ g.compute = none)

/-! ## Backoff scheduler

`SleepSchedule` from `ufdl/joblauncher/core/_sleep.py` (the current,
clamping implementation; the constructor rejects empty schedules, so only
the index bookkeeping is embedded).  The legacy duplicate
`ufdl/joblauncher/_sleep.py` differs only in `next`, which wraps to index
0 past the end; it is embedded alongside for reference. -/

structure SleepSchedule where
  /-- The `_schedule` field: the wait durations in seconds (`int`s in the source). -/
  schedule : List ℤ
  /-- The `_current` field: the current index into the schedule. -/
  current : Nat
deriving DecidableEq, Repr

/-- Embeds `SleepSchedule.next` (`core/_sleep.py` lines 87-92): advance the index
only while `current + 1 < len(schedule)`, i.e. clamp at the last entry. -/
def SleepSchedule.next (s : SleepSchedule) : SleepSchedule :=
  if s.current + 1 < s.schedule.length then { s with current := s.current + 1 }
  else s

/-- Embeds `SleepSchedule.reset` (`core/_sleep.py` lines 81-85). -/
def SleepSchedule.reset (s : SleepSchedule) : SleepSchedule :=
  { s with current := 0 }

/-- Embeds `SleepSchedule.next` of the legacy `ufdl/joblauncher/_sleep.py`
(lines 86-92): increment, and wrap to index 0 on reaching the end. -/
def SleepSchedule.legacyNext (s : SleepSchedule) : SleepSchedule :=
  let s := { s with current := s.current + 1 }
  if s.current ≥ s.schedule.length then s.reset else s

/-! ## Cancellation check

`AbstractJobExecutor.is_job_cancelled` (`_AbstractJobExecutor.py` lines
874-898).  The executor state holds the `_job_is_cancelled` latch, the
`_last_cancel_check` wall-clock instant and the configured
`_cancel_check_wait` interval; `datetime.now()` becomes an explicit `now`
argument (seconds on the rational line) and the backend
`job_retrieve(...)['is_cancelled']` call becomes an oracle argument.  A
failing retrieve (`Except.error`) propagates, as in the source, before
any state mutation. -/

structure CancelState where
  /-- The `_job_is_cancelled` latch. -/
  job_is_cancelled : Bool
  /-- The `_last_cancel_check` instant (`None` before the first query). -/
  last_cancel_check : Option ℚ
  /-- The `_cancel_check_wait` interval in seconds. -/
  cancel_check_wait : ℚ
deriving DecidableEq, Repr

/-- Result of one `is_job_cancelled` call: the returned boolean, the
updated executor state, and whether the backend was queried. -/
structure CancelCheckResult where
  result : Bool
  state : CancelState
  queried : Bool
deriving DecidableEq, Repr

/-- Embeds `is_job_cancelled(immediate)` at wall-clock `now`, with `retrieve` the
outcome of `job_retrieve(...)['is_cancelled']` (`error` = the HTTP call
raised). -/
def is_job_cancelled (s : CancelState) (immediate : Bool) (now : ℚ)
    (retrieve : Except Unit Bool) : Except Unit CancelCheckResult :=
  let throttleLifted : Bool :=
    immediate ||
      (match s.last_cancel_check with
       | none => true
       | some last => decide (now - last ≥ s.cancel_check_wait))
  if s.job_is_cancelled then
    Except.ok ⟨true, s, false⟩
  else if throttleLifted = false then
    Except.ok ⟨false, s, false⟩
  else
    match retrieve with
    | Except.error e => Except.error e
    | Except.ok b =>
      Except.ok ⟨b, { s with job_is_cancelled := b, last_cancel_check := some now }, true⟩

/-! ## Progress reporting

`AbstractJobExecutor.progress` (`_AbstractJobExecutor.py` lines 686-709).
The initial throttled `is_job_cancelled()` guard, the
`progress_job` backend call, and the `immediate=True` re-check inside the
exception handler each consult the backend; the oracle carries one outcome
per call site.  The trace records whether the progress endpoint was
invoked and whether the handler's immediate check queried the backend. -/

structure ProgressOracle where
  /-- The `job_retrieve` outcome if the leading `is_job_cancelled()` queries. -/
  retrieveAtGuard : Except Unit Bool
  /-- The `progress_job` outcome (`error` = the HTTP call raised). -/
  progressCall : Except Unit Unit
  /-- The `job_retrieve` outcome for the `immediate=True` check in the handler. -/
  retrieveOnFailure : Except Unit Bool
deriving Repr

structure ProgressTrace where
  /-- whether `progress_job` was invoked. -/
  progressEndpointCalled : Bool
  /-- whether the handler's `is_job_cancelled(immediate=True)` queried. -/
  immediateCheckQueried : Bool
deriving DecidableEq, Repr

/-- Embeds `progress(...)`: skip the update when cancellation is already known;
otherwise call `progress_job` and, if it raises, log and run an
`immediate=True` cancellation check.  Errors escaping the two
`is_job_cancelled` calls propagate (they are outside the `try`); the
`progress_job` failure itself is always caught. -/
def progress (s : CancelState) (now : ℚ) (o : ProgressOracle) :
    Except Unit (CancelState × ProgressTrace) :=
  match is_job_cancelled s false now o.retrieveAtGuard with
  | Except.error e => Except.error e
  | Except.ok guard =>
    if guard.result then
      Except.ok (guard.state, ⟨false, false⟩)
    else
      match o.progressCall with
      | Except.ok _ => Except.ok (guard.state, ⟨true, false⟩)
      | Except.error _ =>
        match is_job_cancelled guard.state true now o.retrieveOnFailure with
        | Except.error e => Except.error e
        | Except.ok recheck => Except.ok (recheck.state, ⟨true, recheck.queried⟩)

/-! ## Archive member names

The `arcname` computation of `AbstractJobExecutor._compress`
(`_AbstractJobExecutor.py` lines 613-649), per file.  `strip_path` is
`None`, a `bool`, or a path-prefix string (`Option (Bool ⊕ String)`).
When `strip_path` is a string and the file does not start with it,
`arcname` stays `None` and `arcname.startswith("/")` raises an
`AttributeError` (caught by `_compress`, which then reports failure);
this is the `Except.error` case. -/

def arcnameOf (strip_path : Option (Bool ⊕ String)) (f : String) :
    Except Unit (Option String) :=
  match strip_path with
  | none => Except.ok none
  | some sp =>
    let arcname : Option String :=
      match sp with
      | Sum.inl _ => some (basename f)
      | Sum.inr p => if pyStartsWith f p then some (pyDropChars f p.length) else none
    match arcname with
    | none => Except.error ()
    | some a =>
      Except.ok (some (if pyStartsWith a "/" then pyDropChars a 1 else a))

/-- The archive member names `_compress` would write for a file list: the
per-file `arcname` loop, aborting at the first raised exception (which
`_compress` turns into an error return). -/
def compressArcnames (strip_path : Option (Bool ⊕ String)) :
    List String → Except Unit (List (Option String))
  | [] => Except.ok []
  | f :: fs =>
    match arcnameOf strip_path f with
    | Except.error e => Except.error e
    | Except.ok a =>
      match compressArcnames strip_path fs with
      | Except.error e => Except.error e
      | Except.ok rest => Except.ok (a :: rest)

/-! ## Artifact packaging

`AbstractJobExecutor._any_present` (lines 670-684) and
`_compress_and_upload` (lines 731-757).  The filesystem is an oracle
predicate `fsFile f = true` iff `os.path.exists(f) and os.path.isfile(f)`;
whether the `ZipFile` write in `_compress` succeeds is the oracle `zipOk`
(`_compress` catches its own exceptions and returns an error message, and
`_upload` likewise catches internally, so the packager never raises). -/

/-- Embeds `_any_present(files)`: at least one listed file exists on disk. -/
def any_present (fsFile : String → Bool) (files : List String) : Bool :=
  files.any fsFile

/-- The outcome of `_compress(files, zipfile)`: `none` on success,
`some msg` on failure (exceptions are caught inside `_compress`). -/
def compressOutcome (zipOk : Bool) (files : List String) : Option String :=
  if zipOk then none
  else some ("Failed to compress files into zip file: " ++ String.intercalate ", " files)

structure PackagerTrace where
  /-- whether `_upload` was invoked. -/
  uploadCalled : Bool
  /-- whether only a log entry was made (the two no-op early returns). -/
  noOpLogged : Bool
deriving DecidableEq, Repr

/-- Embeds `_compress_and_upload(output, files, zipfile)`: no-op with a log entry
on an empty list or when no listed file is present; otherwise compress,
and upload only when compression succeeded. -/
def compress_and_upload (fsFile : String → Bool) (zipOk : Bool)
    (files : List String) : PackagerTrace :=
  if files.length = 0 then ⟨false, true⟩
  else if any_present fsFile files = false then ⟨false, true⟩
  else if compressOutcome zipOk files = none then ⟨true, false⟩
  else ⟨false, false⟩

/-! ## Command execution

`AbstractJobExecutor._execute` (lines 495-580), `stdin=None` path.  Any
exception raised while spawning the subprocess or draining its output is
caught by the single `except:` around the whole block and replaced by a
`CompletedProcess(full, 255, stdout=None, stderr=traceback.format_exc())`;
the oracle records whether such an exception occurred, the lines read,
whether a cancellation check turned `True` during the run, and the
subprocess's own exit status from `process.wait()`. -/

structure ExecResult where
  returncode : ℤ
  stdout : Option (List String)
  stderr : Option String
deriving DecidableEq, Repr

structure ExecOracle where
  /-- an exception was raised while spawning or reading the subprocess. -/
  raisesDuringRun : Bool
  /-- the output lines read before completion/termination. -/
  outputLines : List String
  /-- Whether `is_job_cancelled()` became `True` during the read loop. -/
  cancelDetected : Bool
  /-- the engine subprocess's own exit status (`process.wait()`). -/
  engineExitCode : ℤ
deriving DecidableEq, Repr

/-- Embeds `_execute(cmd, always_return)` with `stdin=None`: the synthesized 255
on exception or cancellation, the engine's exit status otherwise, and the
`always_return or returncode > 0` return filter (`None` = the call
returned `None`). -/
def execute (o : ExecOracle) (always_return : Bool) (tracebackText : String) :
    Option ExecResult :=
  let result : ExecResult :=
    if o.raisesDuringRun then
      ⟨255, none, some tracebackText⟩
    else if o.cancelDetected then
      ⟨255, some (o.outputLines ++ ["Job was cancelled"]), none⟩
    else
      ⟨o.engineExitCode, some o.outputLines, none⟩
  if always_return || result.returncode > 0 then some result else none

/-! ## Job lifecycle

`AbstractJobExecutor.run` (lines 900-926) and `_post_run` (lines 828-862).
Each phase's outcome is an oracle: `_pre_run` returns a bool or raises,
`_do_run` returns or raises, the log upload `self.log = self._log`
(a backend `job_add_output` call, *not* wrapped in a `try`) returns or
raises, and `finish_job` returns or raises (caught inside `_post_run`).
`_ping_backend` catches all its own exceptions and is elided.  The trace
records what `run` observably did; `run` itself catches every phase
exception, so it is total and `runRaised` is the (constant) record of
whether anything escaped it. -/

inductive PhaseResult (α : Type) where
  | ok : α → PhaseResult α
  | raised : PhaseResult α
deriving DecidableEq, Repr

structure RunOracle where
  /-- outcome of `_pre_run()`. -/
  pre_run : PhaseResult Bool
  /-- outcome of `_do_run()` (consulted only if it is invoked). -/
  do_run : PhaseResult Unit
  /-- outcome of the log upload `self.log = self._log` in `_post_run`. -/
  logUpload : PhaseResult Unit
  /-- outcome of the `finish_job` backend call. -/
  finishCall : PhaseResult Unit
deriving DecidableEq, Repr

/-- The arguments `_post_run` passes to `finish_job`. -/
structure FinishArgs where
  success : Bool
  /-- the `error` keyword (`none` embeds `Absent`). -/
  error : Option String
deriving DecidableEq, Repr

structure PostRunTrace where
  /-- whether the log upload was attempted. -/
  logUploadAttempted : Bool
  /-- the `finish_job` call, if one was made. -/
  finishCalled : Option FinishArgs
  /-- whether `_post_run` itself propagated an exception. -/
  raised : Bool
deriving DecidableEq, Repr

/-- Embeds `_post_run(pre_run_success, do_run_success, error)`: upload the log,
then compute the error string and call `finish_job` with
`pre_run_success and do_run_success` (a `finish_job` exception is caught
and logged).  An exception from the log upload propagates before
`finish_job` is reached. -/
def post_run (o : RunOracle) (pre_run_success do_run_success : Bool)
    (error : Option String) : PostRunTrace :=
  match o.logUpload with
  | PhaseResult.raised => ⟨true, none, true⟩
  | PhaseResult.ok _ =>
    let error' : Option String :=
      match error with
      | some e => some e
      | none =>
        if pre_run_success = false then
          some "An error occurred during pre-run, check log!"
        else if do_run_success = false then
          some "An error occurred during run, check log!"
        else none
    ⟨true, some ⟨pre_run_success && do_run_success, error'⟩, false⟩

/-- whether `_pre_run` succeeded in `run`'s bookkeeping. -/
def preRunSuccess (o : RunOracle) : Bool :=
  match o.pre_run with
  | PhaseResult.ok b => b
  | PhaseResult.raised => false

/-- whether `_do_run` ran and succeeded in `run`'s bookkeeping. -/
def doRunSuccess (o : RunOracle) : Bool :=
  preRunSuccess o &&
    (match o.do_run with
     | PhaseResult.ok _ => true
     | PhaseResult.raised => false)

structure RunTrace where
  /-- whether `_do_run` was invoked. -/
  doRunInvoked : Bool
  /-- how many times `_post_run` was invoked. -/
  postRunInvocations : Nat
  post : PostRunTrace
  /-- whether `run` itself propagated an exception. -/
  runRaised : Bool
deriving DecidableEq, Repr

/-- Embeds `run()`: try `_pre_run` (an exception means failure with a recorded
error), invoke `_do_run` only on pre-run success (an exception becomes
the error string), then always invoke `_post_run` inside a `try` of its
own, so nothing propagates out of `run`. -/
def run (o : RunOracle) : RunTrace :=
  let (pre_run_success, error0) :=
    match o.pre_run with
    | PhaseResult.ok b => (b, (none : Option String))
    | PhaseResult.raised => (false, some "Failed to execute pre-run code, check log!")
  let (doInvoked, do_run_success, error1) :=
    if pre_run_success then
      match o.do_run with
      | PhaseResult.ok _ => (true, true, error0)
      | PhaseResult.raised => (true, false, some "Failed to execute do-run code, check log!")
    else (false, false, error0)
  let post := post_run o pre_run_success do_run_success error1
  ⟨doInvoked, 1, post, false⟩

/-! ## Helper lemmas -/

/-- On a degenerate snapshot, the `no_gpu_reason` chain produces a reason. -/
theorem no_gpu_reason_ne_none (hw : HardwareInfo) (h : lacksGpuInfo hw) :
    no_gpu_reason hw ≠ none := by
  unfold no_gpu_reason
  rcases h with h | h | h | h | ⟨g, gs, hg, hc⟩
  · rw [h]; simp
  · rw [h]; simp
  · cases hgp : hw.gpus with
    | none => simp
    | some l =>
      cases l with
      | nil => simp
      | cons g gs => simp [h]
  · cases hgp : hw.gpus with
    | none => simp
    | some l =>
      cases l with
      | nil => simp
      | cons g gs => by_cases hd : hw.driver = none <;> simp [h, hd]
  · rw [hg]
    by_cases hd : hw.driver = none <;> by_cases hcu : hw.cuda = none <;>
      simp [hd, hcu, hc]

/-- A latched executor answers every cancellation check positively,
without touching the backend and without changing state. -/
theorem is_job_cancelled_latched (s : CancelState) (immediate : Bool) (now : ℚ)
    (ret : Except Unit Bool) (h : s.job_is_cancelled = true) :
    is_job_cancelled s immediate now ret = Except.ok ⟨true, s, false⟩ := by
  unfold is_job_cancelled
  simp [h]

/-- With a successful backend retrieve, `is_job_cancelled` never raises. -/
theorem is_job_cancelled_ok (s : CancelState) (immediate : Bool) (now : ℚ)
    (b : Bool) :
    ∃ r, is_job_cancelled s immediate now (Except.ok b) = Except.ok r := by
  unfold is_job_cancelled
  by_cases h1 : s.job_is_cancelled = true
  · simp [h1]
  · simp only [h1, if_false, Bool.false_eq_true]
    split <;> exact ⟨_, rfl⟩

/-- A check that reports "not cancelled" leaves the latch unset. -/
theorem result_false_state_not_latched (s : CancelState) (immediate : Bool)
    (now : ℚ) (ret : Except Unit Bool) (r : CancelCheckResult)
    (h : is_job_cancelled s immediate now ret = Except.ok r)
    (hr : r.result = false) : r.state.job_is_cancelled = false := by
  unfold is_job_cancelled at h
  by_cases hs : s.job_is_cancelled = true
  · simp [hs] at h
    rw [← h] at hr
    simp at hr
  · simp [hs] at h
    split at h
    · simp at h
      rw [← h]
      exact Bool.not_eq_true _ ▸ hs
    · cases ret with
      | error e => simp at h
      | ok b =>
        simp at h
        rw [← h] at hr ⊢
        exact hr

/-- An `immediate=True` check on an unlatched executor that completes
normally has queried the backend. -/
theorem immediate_check_queries (s : CancelState) (now : ℚ)
    (ret : Except Unit Bool) (r : CancelCheckResult)
    (hs : s.job_is_cancelled = false)
    (h : is_job_cancelled s true now ret = Except.ok r) : r.queried = true := by
  unfold is_job_cancelled at h
  simp [hs] at h
  cases ret with
  | error e => simp at h
  | ok b =>
    simp at h
    rw [← h]

/-! ## Claim theorems -/

/-- C1: for every hardware snapshot that lacks GPUs (absent or empty
collection), lacks a driver version, lacks a CUDA version, or whose first
GPU lacks a compute value, `can_run` returns `none` (accepts) iff the
docker image is CPU-only, and otherwise returns a descriptive reason
string; a snapshot with an absent GPU collection and one with an empty
GPU collection are treated identically. -/
theorem c1_matcher_degenerate_snapshot_cpu_only :
    (∀ (hw : HardwareInfo) (img : DockerImage), lacksGpuInfo hw →
      (can_run img hw = none ↔ img.cpu = true) ∧
      (img.cpu = false → ∃ r, can_run img hw = some r))
    ∧ (∀ (hw : HardwareInfo) (img : DockerImage),
        can_run img { hw with gpus := none }
          = can_run img { hw with gpus := some [] }) := by
  constructor
  · intro hw img h
    obtain ⟨r, hr⟩ := Option.ne_none_iff_exists'.mp (no_gpu_reason_ne_none hw h)
    constructor
    · unfold can_run
      rw [hr]
      cases hcpu : img.cpu <;> simp
    · intro hcpu
      unfold can_run
      rw [hr, hcpu]
      simp
  · intro hw img
    rfl

/-- C1 witness: a snapshot with no GPU tooling at all accepts a CPU-only
image and rejects a GPU image. -/
theorem c1_matcher_degenerate_snapshot_cpu_only_witness :
    can_run ⟨true, ⟨"10.0", "440.10"⟩, none⟩ ⟨none, none, none⟩ = none ∧
    ∃ r, can_run ⟨false, ⟨"10.0", "440.10"⟩, none⟩ ⟨none, none, none⟩ = some r :=
  ⟨(c1_matcher_degenerate_snapshot_cpu_only.1 ⟨none, none, none⟩
      ⟨true, ⟨"10.0", "440.10"⟩, none⟩ (Or.inl rfl)).1.mpr rfl,
   (c1_matcher_degenerate_snapshot_cpu_only.1 ⟨none, none, none⟩
      ⟨false, ⟨"10.0", "440.10"⟩, none⟩ (Or.inl rfl)).2 rfl⟩

/-- C2: on the snapshot (CUDA `"10.0"`, driver `"440.10"`, first-GPU
compute `7.5`) the code rejects an image with minimum CUDA `"10.1"`, as
the claim states — but it also rejects an image with minimum CUDA `"9.0"`
and generation floor `6.0`, which the claim says is accepted: the
comparison `self.docker_image.cuda_version.version > hardware_info["cuda"]`
is Python string comparison, and `"9.0" > "10.0"` lexicographically, so
the matcher reports the node's `10.0` as "too low" for a `9.0`
requirement. -/
theorem c2_version_comparison_is_lexicographic :
    can_run ⟨false, ⟨"10.1", "418.39"⟩, some ⟨7⟩⟩
        ⟨some "440.10", some "10.0", some [⟨some (15 / 2)⟩]⟩
      = some "Node's CUDA version (10.0) is too low for Docker image (requires >= 10.1)"
    ∧ can_run ⟨false, ⟨"9.0", "410.48"⟩, some ⟨6⟩⟩
        ⟨some "440.10", some "10.0", some [⟨some (15 / 2)⟩]⟩
      = some "Node's CUDA version (10.0) is too low for Docker image (requires >= 9.0)" :=
  ⟨rfl, rfl⟩

/-- C4: with schedule `[5,10,20]` starting at index 0, three consecutive
`next()` calls move the index 0→1→2, a fourth leaves it at 2 (clamping at
the last entry, never wrapping), and `reset()` returns any state to 0. -/
theorem c4_backoff_clamps_at_last_entry :
    (SleepSchedule.next ⟨[5, 10, 20], 0⟩).current = 1
    ∧ (SleepSchedule.next (SleepSchedule.next ⟨[5, 10, 20], 0⟩)).current = 2
    ∧ (SleepSchedule.next (SleepSchedule.next
        (SleepSchedule.next ⟨[5, 10, 20], 0⟩))).current = 2
    ∧ (SleepSchedule.next (SleepSchedule.next (SleepSchedule.next
        (SleepSchedule.next ⟨[5, 10, 20], 0⟩)))).current = 2
    ∧ ∀ s : SleepSchedule, s.reset.current = 0 :=
  ⟨rfl, rfl, rfl, rfl, fun _ => rfl⟩

/-- C3 counterexample: in a run where pre-run and do-run both succeed but
the log upload (`self.log = self._log`, a backend call not wrapped in a
`try` inside `_post_run`) raises, `finish_job` is never called — the
claim states that post-run calls backend finish in every case. -/
theorem c3_counterexample_upload_failure_skips_finish :
    (run ⟨PhaseResult.ok true, PhaseResult.ok (), PhaseResult.raised,
      PhaseResult.ok ()⟩).post.finishCalled = none := rfl

/-- C3 (amended): if pre-run fails (returns false or raises), do-run is
never invoked; post-run executes exactly once in every case and always
attempts the log upload; provided the log upload does not raise, it calls
backend finish with success = (pre-run success AND do-run success) and an
error string whenever either failed; and `run` never propagates an
exception from these phases. -/
theorem c3_lifecycle_amended :
    ∀ o : RunOracle,
      (preRunSuccess o = false → (run o).doRunInvoked = false)
      ∧ (run o).postRunInvocations = 1
      ∧ (run o).post.logUploadAttempted = true
      ∧ (o.logUpload = PhaseResult.ok () →
          ∃ args, (run o).post.finishCalled = some args
            ∧ args.success = (preRunSuccess o && doRunSuccess o)
            ∧ (args.success = false → args.error ≠ none))
      ∧ (run o).runRaised = false := by
  intro o
  obtain ⟨pre, dr, lu, fc⟩ := o
  cases pre with
  | ok b =>
    cases b <;> cases dr <;> cases lu <;> cases fc <;>
      simp [run, post_run, preRunSuccess, doRunSuccess]
  | raised =>
    cases dr <;> cases lu <;> cases fc <;>
      simp [run, post_run, preRunSuccess, doRunSuccess]

/-- C3 witness: a run whose pre-run raises never invokes do-run, runs
post-run once, uploads the log, finishes with `success=False` and an
error string, and raises nothing. -/
theorem c3_lifecycle_amended_witness :
    (run ⟨PhaseResult.raised, PhaseResult.ok (), PhaseResult.ok (),
        PhaseResult.ok ()⟩).doRunInvoked = false
    ∧ ∃ args,
        (run ⟨PhaseResult.raised, PhaseResult.ok (), PhaseResult.ok (),
          PhaseResult.ok ()⟩).post.finishCalled = some args
        ∧ args.success = false :=
  ⟨(c3_lifecycle_amended ⟨PhaseResult.raised, PhaseResult.ok (),
      PhaseResult.ok (), PhaseResult.ok ()⟩).1 rfl,
   match (c3_lifecycle_amended ⟨PhaseResult.raised, PhaseResult.ok (),
      PhaseResult.ok (), PhaseResult.ok ()⟩).2.2.2.1 rfl with
   | ⟨args, h1, h2, _⟩ => ⟨args, h1, h2⟩⟩

/-- C5 counterexample: a call with `immediate=True` on an executor whose
cancellation flag is already latched performs no backend query (the
`_job_is_cancelled` short-circuit precedes the throttle logic), refuting
"a call with immediate=true always performs a backend query". -/
theorem c5_counterexample_immediate_skips_query_when_latched :
    is_job_cancelled ⟨true, none, 30⟩ true 0 (Except.ok false)
      = Except.ok ⟨true, ⟨true, none, 30⟩, false⟩ := rfl

/-- C5 (amended): with `cancel_check_wait = 30`, two cancellation checks
within 30 seconds of each other perform exactly one backend job-retrieve
query — the first queries, the second returns the cached result without
querying — and a call with `immediate=true` performs a backend query
whenever cancellation is not already cached. -/
theorem c5_cancel_check_throttled_amended :
    (∀ (t₁ t₂ : ℚ) (b₁ b₂ : Bool), t₂ - t₁ < 30 →
      is_job_cancelled ⟨false, none, 30⟩ false t₁ (Except.ok b₁)
        = Except.ok ⟨b₁, ⟨b₁, some t₁, 30⟩, true⟩
      ∧ is_job_cancelled ⟨b₁, some t₁, 30⟩ false t₂ (Except.ok b₂)
        = Except.ok ⟨b₁, ⟨b₁, some t₁, 30⟩, false⟩)
    ∧ (∀ (s : CancelState) (now : ℚ) (b : Bool), s.job_is_cancelled = false →
        ∃ r, is_job_cancelled s true now (Except.ok b) = Except.ok r
          ∧ r.queried = true) := by
  constructor
  · intro t₁ t₂ b₁ b₂ h
    constructor
    · rfl
    · cases b₁ with
      | true => rfl
      | false =>
        unfold is_job_cancelled
        have hlt : ¬ (t₂ - t₁ ≥ 30) := not_le.mpr h
        simp [hlt]
  · intro s now b h
    refine ⟨⟨b, { s with job_is_cancelled := b, last_cancel_check := some now }, true⟩, ?_, rfl⟩
    unfold is_job_cancelled
    simp [h]

/-- C5 witness: the two-call scenario at times 0 and 10 with a
not-cancelled backend, and an immediate check on a fresh state. -/
theorem c5_cancel_check_throttled_amended_witness :
    (is_job_cancelled ⟨false, none, 30⟩ false 0 (Except.ok false)
        = Except.ok ⟨false, ⟨false, some 0, 30⟩, true⟩
      ∧ is_job_cancelled ⟨false, some 0, 30⟩ false 10 (Except.ok true)
        = Except.ok ⟨false, ⟨false, some 0, 30⟩, false⟩)
    ∧ ∃ r, is_job_cancelled ⟨false, none, 30⟩ true 0 (Except.ok true)
        = Except.ok r ∧ r.queried = true :=
  ⟨c5_cancel_check_throttled_amended.1 0 10 false true (by norm_num),
   c5_cancel_check_throttled_amended.2 ⟨false, none, 30⟩ 0 true rfl⟩

/-- C9: the cancellation state is latched — once the cached flag is set,
every check returns `True` without querying the backend and leaves the
state unchanged, even with `immediate=true`; and any check that returns
`True` leaves the cached flag set. -/
theorem c9_cancellation_latched :
    (∀ (s : CancelState) (immediate : Bool) (now : ℚ) (ret : Except Unit Bool),
      s.job_is_cancelled = true →
        is_job_cancelled s immediate now ret = Except.ok ⟨true, s, false⟩)
    ∧ (∀ (s : CancelState) (immediate : Bool) (now : ℚ) (ret : Except Unit Bool)
        (r : CancelCheckResult),
        is_job_cancelled s immediate now ret = Except.ok r →
        r.result = true → r.state.job_is_cancelled = true) := by
  constructor
  · intro s immediate now ret h
    unfold is_job_cancelled
    simp [h]
  · intro s immediate now ret r h hr
    unfold is_job_cancelled at h
    by_cases hs : s.job_is_cancelled = true
    · simp [hs] at h
      rw [← h]
      exact hs
    · simp [hs] at h
      split at h
      · simp at h
        rw [← h] at hr
        simp at hr
      · cases ret with
        | error e => simp at h
        | ok b =>
          simp at h
          rw [← h] at hr ⊢
          exact hr

/-- C9 witness: a latched state at an immediate check returns `True`
without a query, and a fresh check that reports `True` latches the flag. -/
theorem c9_cancellation_latched_witness :
    is_job_cancelled ⟨true, some 5, 30⟩ true 100 (Except.error ())
      = Except.ok ⟨true, ⟨true, some 5, 30⟩, false⟩
    ∧ (⟨true, ⟨true, some 0, 30⟩, true⟩ : CancelCheckResult).state.job_is_cancelled
        = true :=
  ⟨c9_cancellation_latched.1 ⟨true, some 5, 30⟩ true 100 (Except.error ()) rfl,
   c9_cancellation_latched.2 ⟨false, none, 30⟩ false 0 (Except.ok true)
     ⟨true, ⟨true, some 0, 30⟩, true⟩ rfl rfl⟩

/-- C6: once cancellation is known locally (the cached flag is set), a
`progress` call never invokes the backend progress endpoint (and leaves
the state untouched); whenever the backend progress call fails, an
immediate unthrottled cancellation check (a backend query) is performed;
and the progress-call failure itself never raises past `progress` — with
successful backend retrieves, `progress` completes normally whatever the
progress call did. -/
theorem c6_progress_suppressed_and_failure_checked :
    (∀ (s : CancelState) (now : ℚ) (o : ProgressOracle),
      s.job_is_cancelled = true →
        progress s now o = Except.ok (s, ⟨false, false⟩))
    ∧ (∀ (s : CancelState) (now : ℚ) (o : ProgressOracle)
        (s' : CancelState) (t : ProgressTrace),
        progress s now o = Except.ok (s', t) →
        o.progressCall = Except.error () →
        t.progressEndpointCalled = true →
        t.immediateCheckQueried = true)
    ∧ (∀ (s : CancelState) (now : ℚ) (b₁ b₂ : Bool) (pc : Except Unit Unit),
        progress s now ⟨Except.ok b₁, pc, Except.ok b₂⟩ ≠ Except.error ()) := by
  refine ⟨?_, ?_, ?_⟩
  · intro s now o h
    unfold progress
    rw [is_job_cancelled_latched s false now o.retrieveAtGuard h]
    simp
  · intro s now o s' t h hpc hcall
    unfold progress at h
    cases hg : is_job_cancelled s false now o.retrieveAtGuard with
    | error e => rw [hg] at h; simp at h
    | ok guard =>
      rw [hg] at h
      by_cases hres : guard.result = true
      · simp only [hres, if_true] at h
        simp at h
        rw [← h.2] at hcall
        simp at hcall
      · simp only [Bool.not_eq_true] at hres
        simp only [hres, Bool.false_eq_true, if_false] at h
        rw [hpc] at h
        cases hr2 : is_job_cancelled guard.state true now o.retrieveOnFailure with
        | error e => rw [hr2] at h; simp at h
        | ok recheck =>
          rw [hr2] at h
          simp at h
          have hflag : guard.state.job_is_cancelled = false :=
            result_false_state_not_latched s false now o.retrieveAtGuard guard hg hres
          have hq : recheck.queried = true :=
            immediate_check_queries guard.state now o.retrieveOnFailure recheck hflag hr2
          rw [← h.2, hq]
  · intro s now b₁ b₂ pc
    unfold progress
    obtain ⟨r, hr⟩ := is_job_cancelled_ok s false now b₁
    rw [hr]
    by_cases hres : r.result = true
    · simp [hres]
    · simp only [Bool.not_eq_true] at hres
      simp only [hres, Bool.false_eq_true, if_false]
      cases pc with
      | ok u => simp
      | error e =>
        obtain ⟨r2, hr2⟩ := is_job_cancelled_ok r.state true now b₂
        rw [hr2]
        simp

/-- C6 witness: on a latched executor `progress` makes no backend
progress call, and on a fresh executor with a failing progress call and
successful retrieves, `progress` completes normally. -/
theorem c6_progress_suppressed_and_failure_checked_witness :
    progress ⟨true, none, 30⟩ 0 ⟨Except.ok false, Except.ok (), Except.ok false⟩
      = Except.ok (⟨true, none, 30⟩, ⟨false, false⟩)
    ∧ progress ⟨false, none, 30⟩ 0
        ⟨Except.ok false, Except.error (), Except.ok false⟩ ≠ Except.error () :=
  ⟨c6_progress_suppressed_and_failure_checked.1 ⟨true, none, 30⟩ 0
      ⟨Except.ok false, Except.ok (), Except.ok false⟩ rfl,
   c6_progress_suppressed_and_failure_checked.2.2 ⟨false, none, 30⟩ 0 false false
      (Except.error ())⟩

/-- C7: `_compress_and_upload` on an empty file list, or on a list none
of whose files exists on disk, never calls `_upload` and only makes a log
entry; in general, `_upload` is invoked exactly when the list is
non-empty, at least one listed file is present, and compression
succeeded. -/
theorem c7_packager_noop_on_missing_files :
    (∀ (fsFile : String → Bool) (zipOk : Bool),
      compress_and_upload fsFile zipOk [] = ⟨false, true⟩)
    ∧ (∀ (fsFile : String → Bool) (zipOk : Bool) (files : List String),
        (∀ f ∈ files, fsFile f = false) →
        compress_and_upload fsFile zipOk files = ⟨false, true⟩)
    ∧ (∀ (fsFile : String → Bool) (zipOk : Bool) (files : List String),
        (compress_and_upload fsFile zipOk files).uploadCalled = true ↔
          (files ≠ [] ∧ any_present fsFile files = true ∧ zipOk = true)) := by
  refine ⟨fun _ _ => rfl, ?_, ?_⟩
  · intro fsFile zipOk files h
    cases files with
    | nil => rfl
    | cons f fs =>
      have hnone : any_present fsFile (f :: fs) = false := by
        simp only [any_present, List.any_eq_false]
        intro x hx
        simp [h x hx]
      unfold compress_and_upload
      simp [hnone]
  · intro fsFile zipOk files
    unfold compress_and_upload compressOutcome
    cases files with
    | nil => simp
    | cons f fs =>
      by_cases hp : any_present fsFile (f :: fs) = true
      · cases zipOk <;> simp [hp]
      · simp only [Bool.not_eq_true] at hp
        simp [hp]

/-- C7 witness: a non-empty list whose single file is absent from the
filesystem is a logged no-op. -/
theorem c7_packager_noop_on_missing_files_witness :
    compress_and_upload (fun _ => false) true ["out.json"] = ⟨false, true⟩ :=
  c7_packager_noop_on_missing_files.2.1 (fun _ => false) true ["out.json"]
    (fun _ _ => rfl)

/-- C8: when spawning or reading the subprocess raises, `_execute`
returns (rather than propagates) a result with exit code 255 and the
stack trace in stderr, whatever `always_return` says; the 255 is a
locally synthesized constant, independent of the engine subprocess's own
exit status. -/
theorem c8_execute_synthesizes_255_on_exception :
    ∀ (o : ExecOracle) (always_return : Bool) (tracebackText : String),
      o.raisesDuringRun = true →
        execute o always_return tracebackText
          = some ⟨255, none, some tracebackText⟩
        ∧ (∀ c : ℤ, execute { o with engineExitCode := c } always_return tracebackText
            = execute o always_return tracebackText) := by
  intro o always_return tracebackText h
  constructor
  · unfold execute
    simp [h]
  · intro c
    unfold execute
    simp [h]

/-- C8 witness: a run whose spawn raises yields exit code 255 with the
trace in stderr even with `always_return=False`, for any engine status. -/
theorem c8_execute_synthesizes_255_on_exception_witness :
    execute ⟨true, [], false, 0⟩ false "Traceback (most recent call last)"
      = some ⟨255, none, some "Traceback (most recent call last)"⟩
    ∧ execute ⟨true, [], false, 77⟩ false "Traceback (most recent call last)"
      = execute ⟨true, [], false, 0⟩ false "Traceback (most recent call last)" :=
  ⟨(c8_execute_synthesizes_255_on_exception ⟨true, [], false, 0⟩ false
      "Traceback (most recent call last)" rfl).1,
   (c8_execute_synthesizes_255_on_exception ⟨true, [], false, 0⟩ false
      "Traceback (most recent call last)" rfl).2 77⟩

/-- The slash-resetting fold never leaves a slash in its accumulator. -/
theorem slash_not_mem_foldl (cs : List Char) :
    ∀ acc : List Char, '/' ∉ acc →
      '/' ∉ cs.foldl (fun acc c => if c = '/' then [] else acc ++ [c]) acc := by
  induction cs with
  | nil => intro acc h; exact h
  | cons c cs ih =>
    intro acc h
    simp only [List.foldl_cons]
    by_cases hc : c = '/'
    · rw [if_pos hc]
      exact ih [] (List.not_mem_nil '/')
    · rw [if_neg hc]
      refine ih _ ?_
      intro hmem
      rcases List.mem_append.mp hmem with h1 | h1
      · exact h h1
      · rw [List.mem_singleton] at h1
        exact hc h1.symm

/-- A basename contains no slash. -/
theorem slash_not_mem_basenameChars (cs : List Char) : '/' ∉ basenameChars cs :=
  slash_not_mem_foldl cs [] (List.not_mem_nil '/')

/-- A basename never starts with a slash. -/
theorem basename_not_startsWith_slash (f : String) :
    pyStartsWith (basename f) "/" = false := by
  unfold pyStartsWith basename
  have hmem := slash_not_mem_basenameChars f.data
  show List.isPrefixOf ("/" : String).data (basenameChars f.data) = false
  cases hb : basenameChars f.data with
  | nil => rfl
  | cons c cs =>
    rw [hb] at hmem
    have hc : ¬ ('/' = c) := fun hh => hmem (hh ▸ List.mem_cons_self '/' cs)
    show List.isPrefixOf ['/'] (c :: cs) = false
    simp [List.isPrefixOf, hc]

/-- C10: `_compress` produces the same archive member names with
`strip_path=False` as with `strip_path=True` — the `isinstance(strip_path,
bool)` branch assigns the basename without consulting the boolean's value
— and only `strip_path=None` preserves the full path (member name `None`
means the zip entry keeps the file's own path). -/
theorem c10_strip_path_bool_value_ignored :
    (∀ files : List String,
      compressArcnames (some (Sum.inl false)) files
        = compressArcnames (some (Sum.inl true)) files)
    ∧ (∀ (f : String) (b : Bool),
        arcnameOf (some (Sum.inl b)) f = Except.ok (some (basename f)))
    ∧ (∀ f : String, arcnameOf none f = Except.ok none) := by
  have harc : ∀ (f : String) (b : Bool),
      arcnameOf (some (Sum.inl b)) f = Except.ok (some (basename f)) := by
    intro f b
    unfold arcnameOf
    simp [basename_not_startsWith_slash f]
  refine ⟨?_, harc, fun f => rfl⟩
  intro files
  induction files with
  | nil => rfl
  | cons f fs ih =>
    unfold compressArcnames
    rw [harc f false, harc f true, ih]

end UfdlJobLauncher
